import Mathlib

/-!
Verification of the favicon-generator pipeline (`src/app/api/generate/route.ts`).

The pixel buffer of a raster image is modelled as a `List ℕ` of RGBA8 bytes
(4 bytes per pixel, row-major).  JavaScript numbers appearing in the radius
arithmetic are modelled as `ℚ` (all values reached by the program are exact
small rationals); `NaN` results of `Number(...)` are modelled by `Option ℚ`
with `none` standing for `NaN`.
-/

namespace FaviconGen

/-- JavaScript's `Math.round`: round half toward positive infinity,
`Math.round x = ⌊x + 1/2⌋`. -/
def jsRound (q : ℚ) : ℤ := ⌊q + 1/2⌋

/-- From `route.ts` line 51: `Math.max(0, Math.min(256, Number(radiusStr) || 40))`.
The argument is the value of `Number(radiusStr)`, with `none` standing for
`NaN` (non-numeric string); `Number(null)` is `0`, so an absent field reaches
this function as `some 0`.  `x || 40` yields `40` when `x` is falsy
(`NaN`, `0` or `-0`). -/
def parseRadius (v : Option ℚ) : ℚ :=
  let x : ℚ := match v with
    | none => 40
    | some q => if q = 0 then 40 else q
  max 0 (min 256 x)

/-- From `route.ts` line 80: `Math.min(originalWidth, originalHeight, 192)`. -/
def previewBaseSize (originalWidth originalHeight : ℕ) : ℕ :=
  min originalWidth (min originalHeight 192)

/-- From `route.ts` line 119: scaled corner radius
`Math.round(radius * (Math.min(targetWidth, targetHeight) / previewBaseSize))`. -/
def scaledRadius (radius : ℚ) (targetWidth targetHeight pbs : ℕ) : ℤ :=
  jsRound (radius * ((min targetWidth targetHeight : ℕ) / (pbs : ℚ)))

/-- From `route.ts` line 120: effective corner radius
`Math.min(scaledRadius, Math.floor(Math.min(info.width, info.height) / 2))`;
sharp guarantees `info.width = targetWidth` and `info.height = targetHeight`. -/
def effectiveRadius (radius : ℚ) (targetWidth targetHeight pbs : ℕ) : ℤ :=
  min (scaledRadius radius targetWidth targetHeight pbs)
    ((min targetWidth targetHeight / 2 : ℕ) : ℤ)

/-- From `route.ts` lines 322–358: the per-pixel corner test of `applyRoundedCorners`.
Coordinates and the radius are cast to `ℤ` because the JavaScript arithmetic
(`width - r - 1` etc.) is over signed numbers. -/
def shouldBeTransparent (width height r x y : ℤ) : Bool :=
  -- top-left corner
  (decide (x < r ∧ y < r ∧ (r - x) * (r - x) + (r - y) * (r - y) > r * r)) ||
  -- top-right corner
  (decide (x ≥ width - r ∧ y < r ∧
    (x - (width - r - 1)) * (x - (width - r - 1)) + (r - y) * (r - y) > r * r)) ||
  -- bottom-left corner
  (decide (x < r ∧ y ≥ height - r ∧
    (r - x) * (r - x) + (y - (height - r - 1)) * (y - (height - r - 1)) > r * r)) ||
  -- bottom-right corner
  (decide (x ≥ width - r ∧ y ≥ height - r ∧
    (x - (width - r - 1)) * (x - (width - r - 1)) +
      (y - (height - r - 1)) * (y - (height - r - 1)) > r * r))

/-- The update the loop body of `applyRoundedCorners` performs on the byte at
flat index `i`: only the alpha byte (`i % 4 = 3`) of a pixel scanned by the
loop (`i / 4 < width * height`) whose corner test fires is set to `0`. -/
def maskByte (width height r : ℕ) (i b : ℕ) : ℕ :=
  if i % 4 = 3 ∧ i / 4 < width * height ∧
      shouldBeTransparent width height r ((i / 4) % width : ℕ) ((i / 4) / width : ℕ)
        = true then
    0
  else b

/-- From `route.ts` lines 304–367, `applyRoundedCorners`: copy the buffer and zero
the alpha byte of every pixel whose corner test fires; `radius === 0` returns
the input unchanged.  The double loop over `(x, y)` writes each flat index at
most once, and a write past the end of the buffer is a no-op on a Node
`Buffer`, so the loop is the indexed map `maskByte`. -/
def applyRoundedCorners (data : List ℕ) (width height radius : ℕ) : List ℕ :=
  if radius = 0 then data
  else data.mapIdx (maskByte width height radius)

/-! ### The request pipeline (the `POST` handler of `route.ts`)

The sharp library and the `to-ico` package are external to the repository;
they enter the model as an abstract `Stages` record of effectful operations,
each returning `Except String` (a thrown exception is an `error`, caught by
the handler's surrounding `try`/`catch`).  Everything the handler itself
does — validation, radius parsing and scaling, the size tables, the corner
mask, and the assembly of the archive — is embedded from the source. -/

/-- A `fit` policy passed to `sharp.resize`. -/
inductive FitPolicy where
  | cover
  | contain
  deriving DecidableEq

/-- The options the handler passes to `sharp.resize`: the fit policy and, for
`contain`, the explicit background — the handler always passes the fully
transparent `{r: 0, g: 0, b: 0, alpha: 0}`. -/
structure ResizeOpts where
  fit : FitPolicy
  background : Option (ℕ × ℕ × ℕ × ℕ)
  deriving DecidableEq

/-- The uploaded file as the validation code sees it: byte size, declared
MIME type, raw bytes. -/
structure UploadFile where
  size : ℕ
  type : String
  bytes : List ℕ
  deriving DecidableEq

/-- A parsed multipart request.  `radiusVal` is the value of
`Number(formData.get("radius"))`, with `none` standing for `NaN`; an absent
field reaches it as `some 0` because `Number(null) = 0`.  The metadata
strings are already defaulted as by the `|| "My App"` fallbacks. -/
structure Request where
  file : Option UploadFile
  radiusVal : Option ℚ
  appName : String
  shortName : String
  themeColor : String

/-- The handler's error responses: three 400 validation errors and the
catch-all 500 of the `try`/`catch`. -/
inductive ApiError where
  | noFile
  | tooLarge
  | badType
  | internal (msg : String)
  deriving DecidableEq

/-- HTTP status code of an error response. -/
def ApiError.status : ApiError → ℕ
  | .noFile => 400
  | .tooLarge => 400
  | .badType => 400
  | .internal _ => 500

/-- From `route.ts` line 6: `10 * 1024 * 1024`. -/
def MAX_FILE_SIZE : ℕ := 10 * 1024 * 1024

/-- From `route.ts` line 46: the accepted declared MIME types. -/
def validTypes : List String :=
  ["image/png", "image/jpeg", "image/jpg", "image/svg+xml"]

/-- From `route.ts` lines 38–49: the validation checks, in source order. -/
def validate : Option UploadFile → Option ApiError
  | none => some .noFile
  | some f =>
    if f.size > MAX_FILE_SIZE then some .tooLarge
    else if ¬ validTypes.contains f.type then some .badType
    else none

/-- The external image operations, abstracted: `decode` is lines 58–69
(sharp metadata, SVG rasterization, `ensureAlpha`, PNG round-trip), returning
the original width and height and the normalized base buffer; `resize` is a
`sharp(base).resize(...)` whose raw output sharp guarantees to have exactly
the requested target dimensions; `encodePng` is `.png().toBuffer()`; `toIco`
is the `to-ico` package. -/
structure Stages where
  decode : String → List ℕ → Except String (ℕ × ℕ × List ℕ)
  resize : List ℕ → ResizeOpts → ℕ → ℕ → Except String (List ℕ)
  encodePng : List ℕ → ℕ → ℕ → Except String (List ℕ)
  toIco : List (List ℕ) → Except String (List ℕ)

/-- Contents of one file of the produced ZIP archive.  The webmanifest and
README are text generated from the pass-through metadata by glue code outside
the verified core, so they are kept as structured markers. -/
inductive ZipData where
  | bin (bytes : List ℕ)
  | manifest (appName shortName themeColor : String)
  | readme
  deriving DecidableEq

/-- From `route.ts` lines 9–17 (`PUBLIC_SIZES`). -/
def PUBLIC_SIZES : List (String × ℕ) :=
  [("public/favicon-16x16.png", 16),
   ("public/favicon-32x32.png", 32),
   ("public/favicon-48x48.png", 48),
   ("public/apple-touch-icon.png", 180),
   ("public/android-chrome-192x192.png", 192),
   ("public/android-chrome-512x512.png", 512),
   ("public/opengraph-image.png", 1200)]

/-- From `route.ts` lines 20–23 (`APP_SIZES`). -/
def APP_SIZES : List (String × ℕ) :=
  [("src/app/icon.png", 32), ("src/app/apple-icon.png", 180)]

/-- From `route.ts` line 26 (`ICO_SIZES`). -/
def ICO_SIZES : List ℕ := [16, 32, 48]

/-- From `route.ts` lines 85–131, `resizeAndApplyRoundedCorners`: resize (Contain
at 1200×630 with transparent background for the OGP flag, Cover at
`size`×`size` otherwise), then apply the corner mask at the effective radius
(the resized `info` dimensions are the target dimensions), then PNG-encode. -/
def resizeAndApplyRoundedCorners (st : Stages) (radius : ℚ) (pbs : ℕ)
    (baseBuffer : List ℕ) (size : ℕ) (isOgp : Bool) : Except String (List ℕ) := do
  let targetWidth := if isOgp then 1200 else size
  let targetHeight := if isOgp then 630 else size
  let opts : ResizeOpts :=
    if isOgp then ⟨.contain, some (0, 0, 0, 0)⟩ else ⟨.cover, none⟩
  let rawData ← st.resize baseBuffer opts targetWidth targetHeight
  let processedBuffer := applyRoundedCorners rawData targetWidth targetHeight
    (effectiveRadius radius targetWidth targetHeight pbs).toNat
  st.encodePng processedBuffer targetWidth targetHeight

/-- From `route.ts` lines 134–153, the body of the `PUBLIC_SIZES` loop.  The code
compares `filepath.replace("public/", "")` against `"opengraph-image.png"`;
since every key of the table starts with `"public/"`, this is the comparison
of the full path against `"public/opengraph-image.png"`.  The OGP image is
produced directly with Contain fit and transparent background and is never
passed through `applyRoundedCorners`; every other entry goes through
`resizeAndApplyRoundedCorners` with the OGP flag off. -/
def genPublicFile (st : Stages) (radius : ℚ) (pbs : ℕ) (baseBuffer : List ℕ)
    (filepath : String) (size : ℕ) : Except String (List ℕ) :=
  if filepath = "public/opengraph-image.png" then do
    let ogpImage ← st.resize baseBuffer ⟨.contain, some (0, 0, 0, 0)⟩ 1200 630
    st.encodePng ogpImage 1200 630
  else
    resizeAndApplyRoundedCorners st radius pbs baseBuffer size false

/-- A sequential `for ... of` loop producing one archive entry per table
entry, aborting on the first failure (each iteration `await`s). -/
def genFiles (f : String → ℕ → Except String (List ℕ)) :
    List (String × ℕ) → Except String (List (String × ZipData))
  | [] => .ok []
  | (fp, size) :: rest => do
    let bytes ← f fp size
    let out ← genFiles f rest
    .ok ((fp, .bin bytes) :: out)

/-- From `route.ts` lines 163–167: the PNG buffers fed to `to-ico`. -/
def genIcoBuffers (st : Stages) (radius : ℚ) (pbs : ℕ) (baseBuffer : List ℕ) :
    List ℕ → Except String (List (List ℕ))
  | [] => .ok []
  | size :: rest => do
    let b ← resizeAndApplyRoundedCorners st radius pbs baseBuffer size false
    let out ← genIcoBuffers st radius pbs baseBuffer rest
    .ok (b :: out)

/-- From `route.ts` lines 28–298, the `POST` handler: validation, radius parsing,
decoding, the three generation loops, the ICO container, and the archive with
webmanifest and README.  A `.error` models an error JSON response; the
archive exists only on full success. -/
def POST (st : Stages) (req : Request) :
    Except ApiError (List (String × ZipData)) :=
  match req.file with
  | none => .error .noFile
  | some file =>
    if file.size > MAX_FILE_SIZE then .error .tooLarge
    else if ¬ validTypes.contains file.type then .error .badType
    else do
      let radius := parseRadius req.radiusVal
      let dec ← (st.decode file.type file.bytes).mapError ApiError.internal
      let pbs := previewBaseSize dec.1 dec.2.1
      let baseBuffer := dec.2.2
      let publicFiles ←
        (genFiles (genPublicFile st radius pbs baseBuffer) PUBLIC_SIZES).mapError
          ApiError.internal
      let appFiles ←
        (genFiles (fun _ size =>
            resizeAndApplyRoundedCorners st radius pbs baseBuffer size false)
          APP_SIZES).mapError ApiError.internal
      let icoBuffers ←
        (genIcoBuffers st radius pbs baseBuffer ICO_SIZES).mapError
          ApiError.internal
      let icoBuffer ← (st.toIco icoBuffers).mapError ApiError.internal
      .ok (publicFiles ++ appFiles ++
        [("public/favicon.ico", .bin icoBuffer),
         ("src/app/favicon.ico", .bin icoBuffer),
         ("public/site.webmanifest",
           .manifest req.appName req.shortName req.themeColor),
         ("README.txt", .readme)])

/-- The names of the files of a successful archive, in insertion order. -/
def zipNames : List String :=
  PUBLIC_SIZES.map Prod.fst ++ APP_SIZES.map Prod.fst ++
    ["public/favicon.ico", "src/app/favicon.ico", "public/site.webmanifest",
     "README.txt"]

/-! ### A concrete run of the pipeline

`testStages` instantiates the abstract sharp/to-ico operations: decoding
reports a 512×512 source, every resize yields a single fully opaque white
RGBA pixel, PNG encoding is the identity on bytes and the ICO container is
empty.  This suffices to observe exactly what the handler's own code does to
the pixels it is given. -/

def testStages : Stages where
  decode := fun _ _ => .ok (512, 512, [])
  resize := fun _ _ _ _ => .ok [255, 255, 255, 255]
  encodePng := fun b _ _ => .ok b
  toIco := fun _ => .ok []

/-- A request whose radius form field is the string `"0"`
(`Number("0") = 0`), with a valid small PNG upload. -/
def zeroRadiusReq : Request where
  file := some ⟨4, "image/png", []⟩
  radiusVal := some 0
  appName := "My App"
  shortName := "App"
  themeColor := "#6366f1"

/-- Stages whose decode stage fails, as on a corrupt image payload. -/
def failDecodeStages : Stages where
  decode := fun _ _ => .error "unsupported image format"
  resize := fun _ _ _ _ => .ok []
  encodePng := fun b _ _ => .ok b
  toIco := fun _ => .ok []

example : jsRound (40 * ((32 : ℚ) / 192)) = 7 := by norm_num [jsRound]
example : parseRadius (some 0) = 40 := by norm_num [parseRadius]
example : shouldBeTransparent 32 32 7 0 0 = true := by decide
example : shouldBeTransparent 32 32 7 6 0 = true := by decide
example : shouldBeTransparent 32 32 7 7 0 = false := by decide
example : applyRoundedCorners [255, 255, 255, 255] 32 32 7 = [255, 255, 255, 0] := by
  decide
example : applyRoundedCorners [255, 255, 255, 255] 32 32 0 = [255, 255, 255, 255] := by
  decide

/-! ### Generic lemmas about the indexed map underlying the pixel loop -/

lemma getElem?_mapIdx (l : List ℕ) (f : ℕ → ℕ → ℕ) (i : ℕ) :
    (l.mapIdx f)[i]? = (l[i]?).map (f i) := by
  simp only [List.mapIdx_eq_enum_map, List.getElem?_map, List.getElem?_enum]
  cases l[i]? <;> simp [Function.uncurry]

lemma pixelIndex_lt (w h x y : ℕ) (hx : x < w) (hy : y < h) : y * w + x < w * h := by
  calc y * w + x < y * w + w := by omega
    _ = (y + 1) * w := by ring
    _ ≤ h * w := Nat.mul_le_mul_right w (by omega)
    _ = w * h := Nat.mul_comm h w

lemma pixelIndex_mod (w x y : ℕ) (hx : x < w) : (y * w + x) % w = x := by
  rw [Nat.mul_comm y w, Nat.mul_add_mod, Nat.mod_eq_of_lt hx]

lemma pixelIndex_div (w x y : ℕ) (hx : x < w) : (y * w + x) / w = y := by
  rw [Nat.mul_comm y w, Nat.mul_add_div (by omega), Nat.div_eq_of_lt hx]
  omega

/-- The condition of `maskByte` at the alpha byte of an in-range pixel reduces
to the corner test at that pixel's coordinates. -/
lemma maskByte_alpha (w h r x y b : ℕ) (hx : x < w) (hy : y < h) :
    maskByte w h r ((y * w + x) * 4 + 3) b =
      if shouldBeTransparent w h r x y then 0 else b := by
  have hmod : ((y * w + x) * 4 + 3) % 4 = 3 := by omega
  have hdiv : ((y * w + x) * 4 + 3) / 4 = y * w + x := by omega
  unfold maskByte
  rw [hmod, hdiv, pixelIndex_mod w x y hx, pixelIndex_div w x y hx]
  have hlt : y * w + x < w * h := pixelIndex_lt w h x y hx hy
  by_cases hc : shouldBeTransparent w h r x y = true
  · simp [hc, hlt]
  · simp [hc]

/-- The corner test, unfolded into the four propositional corner conditions. -/
lemma shouldBeTransparent_iff (w h r x y : ℤ) :
    shouldBeTransparent w h r x y = true ↔
      ((x < r ∧ y < r ∧ (r - x) ^ 2 + (r - y) ^ 2 > r ^ 2) ∨
       (x ≥ w - r ∧ y < r ∧ (x - (w - r - 1)) ^ 2 + (r - y) ^ 2 > r ^ 2) ∨
       (x < r ∧ y ≥ h - r ∧ (r - x) ^ 2 + (y - (h - r - 1)) ^ 2 > r ^ 2) ∨
       (x ≥ w - r ∧ y ≥ h - r ∧
         (x - (w - r - 1)) ^ 2 + (y - (h - r - 1)) ^ 2 > r ^ 2)) := by
  simp only [shouldBeTransparent, Bool.or_eq_true, decide_eq_true_eq, pow_two]
  tauto

lemma applyRoundedCorners_getElem? (data : List ℕ) (w h r i : ℕ) (hr : r ≠ 0) :
    (applyRoundedCorners data w h r)[i]? = (data[i]?).map (maskByte w h r i) := by
  unfold applyRoundedCorners
  rw [if_neg hr]
  exact getElem?_mapIdx data (maskByte w h r) i

/-- C1: For a buffer of `width * height` RGBA8 pixels and a radius `r > 0`,
`applyRoundedCorners` sets the alpha byte of pixel `(x, y)` to `0` exactly when
the pixel lies in one of the four `r × r` corner squares and its `dx² + dy²`
is strictly greater than `r²` (with the corner-local offsets of the source);
otherwise — in particular on a boundary pixel whose `dx² + dy²` equals `r²`
exactly — the alpha byte is kept unchanged. -/
theorem applyRoundedCorners_corner_alpha (data : List ℕ) (w h r x y : ℕ)
    (hr : 0 < r) (hx : x < w) (hy : y < h)
    (hidx : (y * w + x) * 4 + 3 < data.length) :
    ((((x : ℤ) < r ∧ (y : ℤ) < r ∧
        ((r : ℤ) - x) ^ 2 + ((r : ℤ) - y) ^ 2 > (r : ℤ) ^ 2) ∨
      ((x : ℤ) ≥ (w : ℤ) - r ∧ (y : ℤ) < r ∧
        ((x : ℤ) - ((w : ℤ) - r - 1)) ^ 2 + ((r : ℤ) - y) ^ 2 > (r : ℤ) ^ 2) ∨
      ((x : ℤ) < r ∧ (y : ℤ) ≥ (h : ℤ) - r ∧
        ((r : ℤ) - x) ^ 2 + ((y : ℤ) - ((h : ℤ) - r - 1)) ^ 2 > (r : ℤ) ^ 2) ∨
      ((x : ℤ) ≥ (w : ℤ) - r ∧ (y : ℤ) ≥ (h : ℤ) - r ∧
        ((x : ℤ) - ((w : ℤ) - r - 1)) ^ 2 + ((y : ℤ) - ((h : ℤ) - r - 1)) ^ 2 >
          (r : ℤ) ^ 2)) →
      (applyRoundedCorners data w h r)[(y * w + x) * 4 + 3]? = some 0) ∧
    (¬ (((x : ℤ) < r ∧ (y : ℤ) < r ∧
        ((r : ℤ) - x) ^ 2 + ((r : ℤ) - y) ^ 2 > (r : ℤ) ^ 2) ∨
      ((x : ℤ) ≥ (w : ℤ) - r ∧ (y : ℤ) < r ∧
        ((x : ℤ) - ((w : ℤ) - r - 1)) ^ 2 + ((r : ℤ) - y) ^ 2 > (r : ℤ) ^ 2) ∨
      ((x : ℤ) < r ∧ (y : ℤ) ≥ (h : ℤ) - r ∧
        ((r : ℤ) - x) ^ 2 + ((y : ℤ) - ((h : ℤ) - r - 1)) ^ 2 > (r : ℤ) ^ 2) ∨
      ((x : ℤ) ≥ (w : ℤ) - r ∧ (y : ℤ) ≥ (h : ℤ) - r ∧
        ((x : ℤ) - ((w : ℤ) - r - 1)) ^ 2 + ((y : ℤ) - ((h : ℤ) - r - 1)) ^ 2 >
          (r : ℤ) ^ 2)) →
      (applyRoundedCorners data w h r)[(y * w + x) * 4 + 3]? =
        data[(y * w + x) * 4 + 3]?) := by
  have hmap := applyRoundedCorners_getElem? data w h r ((y * w + x) * 4 + 3)
    (by omega)
  obtain ⟨b, hb⟩ : ∃ b, data[(y * w + x) * 4 + 3]? = some b :=
    ⟨_, List.getElem?_eq_getElem hidx⟩
  rw [hb] at hmap
  constructor
  · intro hc
    rw [hmap, Option.map_some', maskByte_alpha w h r x y b hx hy,
      if_pos ((shouldBeTransparent_iff (w : ℤ) (h : ℤ) (r : ℤ) (x : ℤ) (y : ℤ)).mpr hc)]
  · intro hc
    rw [hmap, Option.map_some', maskByte_alpha w h r x y b hx hy, if_neg, hb]
    intro habs
    exact hc ((shouldBeTransparent_iff (w : ℤ) (h : ℤ) (r : ℤ) (x : ℤ) (y : ℤ)).mp habs)

/-- Witness for C1: in a 1×1 buffer with radius 1, the single pixel's
`dx² + dy² = 2 > 1`, so its alpha byte (index 3) is zeroed. -/
theorem applyRoundedCorners_corner_alpha_witness :
    (applyRoundedCorners [9, 9, 9, 9] 1 1 1)[(0 * 1 + 0) * 4 + 3]? = some 0 := by
  exact (applyRoundedCorners_corner_alpha [9, 9, 9, 9] 1 1 1 0 0
    (by decide) (by decide) (by decide) (by decide)).1 (by decide)

/-- C2: `applyRoundedCorners` only ever clears alpha bytes: the length is
preserved, every byte whose flat index is not `≡ 3 (mod 4)` (the R, G, B
bytes) is unchanged, and every pixel lying outside all four `r × r` corner
squares keeps all four of its bytes unchanged. -/
theorem applyRoundedCorners_frame (data : List ℕ) (w h r : ℕ) :
    (applyRoundedCorners data w h r).length = data.length ∧
    (∀ i, i % 4 ≠ 3 → (applyRoundedCorners data w h r)[i]? = data[i]?) ∧
    (∀ x y, x < w → y < h →
      ¬ ((x : ℤ) < r ∧ (y : ℤ) < r) →
      ¬ ((x : ℤ) ≥ (w : ℤ) - r ∧ (y : ℤ) < r) →
      ¬ ((x : ℤ) < r ∧ (y : ℤ) ≥ (h : ℤ) - r) →
      ¬ ((x : ℤ) ≥ (w : ℤ) - r ∧ (y : ℤ) ≥ (h : ℤ) - r) →
      ∀ j, j < 4 →
        (applyRoundedCorners data w h r)[(y * w + x) * 4 + j]? =
          data[(y * w + x) * 4 + j]?) := by
  by_cases hr0 : r = 0
  · subst hr0
    simp [applyRoundedCorners]
  refine ⟨?_, ?_, ?_⟩
  · simp [applyRoundedCorners, hr0, List.length_mapIdx]
  · intro i hi
    rw [applyRoundedCorners_getElem? data w h r i hr0]
    cases hb : data[i]? with
    | none => rfl
    | some b => simp [maskByte, hi]
  · intro x y hx hy h1 h2 h3 h4 j hj
    have hst : shouldBeTransparent w h r x y = false := by
      rw [Bool.eq_false_iff]
      intro habs
      rcases (shouldBeTransparent_iff (w : ℤ) (h : ℤ) (r : ℤ) (x : ℤ) (y : ℤ)).mp habs
        with ⟨a, b, _⟩ | ⟨a, b, _⟩ | ⟨a, b, _⟩ | ⟨a, b, _⟩
      · exact h1 ⟨a, b⟩
      · exact h2 ⟨a, b⟩
      · exact h3 ⟨a, b⟩
      · exact h4 ⟨a, b⟩
    by_cases hj3 : j = 3
    · subst hj3
      rw [applyRoundedCorners_getElem? data w h r _ hr0]
      cases hb : data[(y * w + x) * 4 + 3]? with
      | none => rfl
      | some b =>
        rw [Option.map_some', maskByte_alpha w h r x y b hx hy, hst]
        rfl
    · rw [applyRoundedCorners_getElem? data w h r _ hr0]
      cases hb : data[(y * w + x) * 4 + j]? with
      | none => rfl
      | some b =>
        have : ((y * w + x) * 4 + j) % 4 ≠ 3 := by omega
        simp [maskByte, this]

/-- Witness for C2 on a concrete 2×1 buffer: the length is preserved and
byte 0 (an R byte, flat index `0 % 4 ≠ 3`) is unchanged. -/
theorem applyRoundedCorners_frame_witness :
    (applyRoundedCorners [1, 2, 3, 4, 5, 6, 7, 8] 2 1 0).length = 8 ∧
    (applyRoundedCorners [1, 2, 3, 4, 5, 6, 7, 8] 2 1 0)[0]? = some 1 := by
  have h := applyRoundedCorners_frame [1, 2, 3, 4, 5, 6, 7, 8] 2 1 0
  exact ⟨h.1, by rw [h.2.1 0 (by decide)]; rfl⟩

/-- C3: With radius `0`, `applyRoundedCorners` returns its input buffer
unchanged (a true no-op on every byte). -/
theorem applyRoundedCorners_radius_zero (data : List ℕ) (w h : ℕ) :
    applyRoundedCorners data w h 0 = data := by
  simp [applyRoundedCorners]

/-- C4: The effective corner radius of a variant equals
`round(baseRadius * min(targetWidth, targetHeight) / referenceSize)` clamped
to at most `floor(min(targetWidth, targetHeight) / 2)`; and for a 512×512
source with radius request 40, the reference size is 192 and the 32×32
variant gets effective radius `round(40 * 32 / 192) = 7`, below the clamp 16. -/
theorem effectiveRadius_spec :
    (∀ (radius : ℚ) (tw th pbs : ℕ),
      effectiveRadius radius tw th pbs =
        min (jsRound (radius * ((min tw th : ℕ) : ℚ) / (pbs : ℚ)))
          ((min tw th / 2 : ℕ) : ℤ)) ∧
    parseRadius (some 40) = 40 ∧
    previewBaseSize 512 512 = 192 ∧
    scaledRadius 40 32 32 192 = 7 ∧
    effectiveRadius 40 32 32 192 = 7 ∧
    (7 : ℤ) < ((min 32 32 / 2 : ℕ) : ℤ) := by
  refine ⟨?_, ?_, ?_, ?_, ?_, ?_⟩
  · intro radius tw th pbs
    unfold effectiveRadius scaledRadius
    rw [mul_div_assoc]
  · norm_num [parseRadius]
  · decide
  · norm_num [scaledRadius, jsRound, previewBaseSize]
  · norm_num [effectiveRadius, scaledRadius, jsRound]
  · decide

/-- C5: With fixed base radius and reference size, the effective radius
for a square target of size `S` is monotonically non-decreasing in `S`. -/
theorem effectiveRadius_monotone (radius : ℚ) (pbs s1 s2 : ℕ)
    (hrad : 0 ≤ radius) (hs : s1 ≤ s2) :
    effectiveRadius radius s1 s1 pbs ≤ effectiveRadius radius s2 s2 pbs := by
  have hcast : ((s1 : ℚ)) ≤ (s2 : ℚ) := by exact_mod_cast hs
  have hdiv : (s1 : ℚ) / pbs ≤ (s2 : ℚ) / pbs := by
    rw [div_eq_mul_inv, div_eq_mul_inv]
    exact mul_le_mul_of_nonneg_right hcast (inv_nonneg.mpr (by positivity))
  have hmul : radius * ((s1 : ℚ) / pbs) ≤ radius * ((s2 : ℚ) / pbs) :=
    mul_le_mul_of_nonneg_left hdiv hrad
  unfold effectiveRadius scaledRadius jsRound
  simp only [Nat.min_self]
  refine min_le_min (Int.floor_le_floor (by linarith)) ?_
  exact_mod_cast Nat.div_le_div_right hs

/-- Witness for C5: at base radius 40, reference 192, the 16px target's
effective radius is at most the 32px target's. -/
theorem effectiveRadius_monotone_witness :
    0 ≤ (40 : ℚ) ∧ 16 ≤ 32 ∧
    effectiveRadius 40 16 16 192 ≤ effectiveRadius 40 32 32 192 :=
  ⟨by norm_num, by norm_num,
    effectiveRadius_monotone 40 192 16 32 (by norm_num) (by norm_num)⟩

/-- C10 (amended): Radius parsing: an absent field (`Number(null) = 0`),
a non-numeric field (`NaN`), and the field `"0"` all fall back to 40 via the
falsy `|| 40`; a positive parsed value `≤ 256` is used unchanged (this
includes non-integer values such as `0.5`, not only the integers `1..256`);
values above 256 are clamped to 256. -/
theorem parseRadius_spec :
    parseRadius none = 40 ∧
    parseRadius (some 0) = 40 ∧
    (∀ q : ℚ, 0 < q → q ≤ 256 → parseRadius (some q) = q) ∧
    (∀ q : ℚ, 256 < q → parseRadius (some q) = 256) := by
  refine ⟨by norm_num [parseRadius], by norm_num [parseRadius], ?_, ?_⟩
  · intro q h0 h256
    show max 0 (min 256 (if q = 0 then (40 : ℚ) else q)) = q
    rw [if_neg (by linarith), min_eq_right h256, max_eq_right (le_of_lt h0)]
  · intro q h256
    show max 0 (min 256 (if q = 0 then (40 : ℚ) else q)) = 256
    rw [if_neg (by linarith), min_eq_left (le_of_lt h256)]
    norm_num

/-- Witness for C10: the absent field yields 40 and the value 3 is kept. -/
theorem parseRadius_spec_witness :
    parseRadius none = 40 ∧ parseRadius (some 3) = 3 :=
  ⟨parseRadius_spec.1, parseRadius_spec.2.2.1 3 (by norm_num) (by norm_num)⟩

/-- Counterexample for C10 as stated: the field `"0.5"` parses to `1/2`,
which is used unchanged by the radius computation although `1/2` does not lie
in `[1, 256]` — so it is not true that only values in `[1, 256]` pass through
unchanged. -/
theorem parseRadius_fraction_counterexample :
    parseRadius (some (1 / 2)) = 1 / 2 ∧ ¬ ((1 : ℚ) ≤ 1 / 2) := by
  constructor
  · norm_num [parseRadius]
  · norm_num

/-! ### Reduction lemmas for the `Except` plumbing -/

lemma except_ok_bind {α β ε : Type} (a : α) (f : α → Except ε β) :
    (Except.ok a >>= f) = f a := rfl

lemma except_error_bind {α β ε : Type} (e : ε) (f : α → Except ε β) :
    ((Except.error e : Except ε α) >>= f) = Except.error e := rfl

lemma except_mapError_ok {α ε ε' : Type} (g : ε → ε') (a : α) :
    (Except.ok a : Except ε α).mapError g = Except.ok a := rfl

lemma except_mapError_error {α ε ε' : Type} (g : ε → ε') (e : ε) :
    (Except.error e : Except ε α).mapError g = Except.error (g e) := rfl

/-- A successful generation loop yields exactly one archive entry per table
entry, carrying the table's file names in order. -/
lemma genFiles_ok_names (f : String → ℕ → Except String (List ℕ))
    (l : List (String × ℕ)) (out : List (String × ZipData))
    (h : genFiles f l = .ok out) : out.map Prod.fst = l.map Prod.fst := by
  induction l generalizing out with
  | nil =>
    unfold genFiles at h
    injection h with h'
    subst h'
    rfl
  | cons e rest ih =>
    obtain ⟨fp, size⟩ := e
    unfold genFiles at h
    cases hb : f fp size with
    | error e' => rw [hb, except_error_bind] at h; exact absurd h (by simp)
    | ok bytes =>
      rw [hb, except_ok_bind] at h
      cases hrest : genFiles f rest with
      | error e' => rw [hrest, except_error_bind] at h; exact absurd h (by simp)
      | ok out' =>
        rw [hrest, except_ok_bind] at h
        injection h with h'
        subst h'
        simpa using ih out' hrest

lemma contains_validTypes_iff (t : String) :
    validTypes.contains t = true ↔ t ∈ validTypes :=
  List.elem_iff

/-- C7 (amended): A request passes validation iff the file is at most
10 MiB and its declared MIME type is one of `image/png`, `image/jpeg`,
`image/jpg`, `image/svg+xml`; every validation error is an HTTP 400; and on
a validation error the handler answers with exactly that error, whatever the
decoding stages would do — so nothing is decoded and no file is produced. -/
theorem validate_spec :
    (∀ f : UploadFile,
      validate (some f) = none ↔ f.size ≤ MAX_FILE_SIZE ∧ f.type ∈ validTypes) ∧
    (∀ (f : UploadFile) (e : ApiError), validate (some f) = some e →
      e.status = 400) ∧
    (∀ (st : Stages) (req : Request) (f : UploadFile) (e : ApiError),
      req.file = some f → validate (some f) = some e →
      POST st req = .error e) := by
  refine ⟨?_, ?_, ?_⟩
  · intro f
    unfold validate
    constructor
    · intro hnone
      dsimp only at hnone
      split_ifs at hnone with h1 h2
      exact ⟨by omega, (contains_validTypes_iff f.type).mp h2⟩
    · rintro ⟨hs, ht⟩
      dsimp only
      rw [if_neg (by omega),
        if_neg (not_not_intro ((contains_validTypes_iff f.type).mpr ht))]
  · intro f e hv
    unfold validate at hv
    dsimp only at hv
    split_ifs at hv with h1 h2
    · injection hv with h'; rw [← h']; rfl
    · injection hv with h'; rw [← h']; rfl
  · intro st req f e hf hv
    unfold POST
    rw [hf]
    dsimp only
    unfold validate at hv
    dsimp only at hv
    split_ifs at hv with h1 h2
    · rw [if_pos h1]; injection hv with h'; rw [h']
    · rw [if_neg h1, if_pos h2]; injection hv with h'; rw [h']

/-- Counterexample for C7 as stated: a small file with declared MIME type
`image/jpg` — outside the claimed allowed set — nevertheless passes
validation, because the source's `validTypes` also lists `"image/jpg"`. -/
theorem validate_jpg_counterexample :
    validate (some ⟨100, "image/jpg", []⟩) = none ∧
    "image/jpg" ∉ (["image/png", "image/jpeg", "image/svg+xml"] : List String) := by
  constructor
  · decide
  · decide

/-- C8: All-or-nothing: every run of the handler either fails with a
single error and produces no archive at all, or succeeds with the complete
archive (all nine PNG variants, the icon container twice, the webmanifest and
the README); and when the decode stage fails — e.g. on a corrupt payload —
the whole request fails with that single decode error. -/
theorem pipeline_all_or_nothing :
    (∀ (st : Stages) (req : Request),
      (∃ e, POST st req = .error e) ∨
      (∃ out, POST st req = .ok out ∧ out.map Prod.fst = zipNames)) ∧
    (∀ (st : Stages) (req : Request) (f : UploadFile) (msg : String),
      req.file = some f → f.size ≤ MAX_FILE_SIZE → f.type ∈ validTypes →
      st.decode f.type f.bytes = .error msg →
      POST st req = .error (.internal msg)) := by
  constructor
  · intro st req
    unfold POST
    cases req.file with
    | none => exact Or.inl ⟨.noFile, rfl⟩
    | some f =>
      dsimp only
      by_cases h1 : f.size > MAX_FILE_SIZE
      · rw [if_pos h1]; exact Or.inl ⟨.tooLarge, rfl⟩
      rw [if_neg h1]
      by_cases h2 : ¬ validTypes.contains f.type = true
      · rw [if_pos h2]; exact Or.inl ⟨.badType, rfl⟩
      rw [if_neg h2]
      cases hdec : st.decode f.type f.bytes with
      | error msg =>
        rw [except_mapError_error, except_error_bind]
        exact Or.inl ⟨_, rfl⟩
      | ok dec =>
        rw [except_mapError_ok, except_ok_bind]
        cases hpub : genFiles (genPublicFile st (parseRadius req.radiusVal)
            (previewBaseSize dec.1 dec.2.1) dec.2.2) PUBLIC_SIZES with
        | error e =>
          rw [except_mapError_error, except_error_bind]
          exact Or.inl ⟨_, rfl⟩
        | ok pub =>
          rw [except_mapError_ok, except_ok_bind]
          cases happ : genFiles (fun _ size =>
              resizeAndApplyRoundedCorners st (parseRadius req.radiusVal)
                (previewBaseSize dec.1 dec.2.1) dec.2.2 size false) APP_SIZES with
          | error e =>
            rw [except_mapError_error, except_error_bind]
            exact Or.inl ⟨_, rfl⟩
          | ok app =>
            rw [except_mapError_ok, except_ok_bind]
            cases hico : genIcoBuffers st (parseRadius req.radiusVal)
                (previewBaseSize dec.1 dec.2.1) dec.2.2 ICO_SIZES with
            | error e =>
              rw [except_mapError_error, except_error_bind]
              exact Or.inl ⟨_, rfl⟩
            | ok bufs =>
              rw [except_mapError_ok, except_ok_bind]
              cases htoico : st.toIco bufs with
              | error e =>
                rw [except_mapError_error, except_error_bind]
                exact Or.inl ⟨_, rfl⟩
              | ok ico =>
                rw [except_mapError_ok, except_ok_bind]
                refine Or.inr ⟨_, rfl, ?_⟩
                rw [List.map_append, List.map_append,
                  genFiles_ok_names _ _ _ hpub, genFiles_ok_names _ _ _ happ]
                rfl
  · intro st req f msg hf hsize htype hdec
    unfold POST
    rw [hf]
    dsimp only
    rw [if_neg (by omega),
      if_neg (not_not_intro ((contains_validTypes_iff f.type).mpr htype)),
      hdec, except_mapError_error, except_error_bind]

/-- C9: The 1200×630 social-preview variant is produced with Contain fit
and fully transparent background and never passes through the corner mask,
while every square entry of the tables — 16, 32, 48, 180, 192 and 512 — is
produced with Cover fit at `size`×`size` followed by `applyRoundedCorners` at
the effective radius. -/
theorem variant_table_spec :
    (∀ (st : Stages) (radius : ℚ) (pbs : ℕ) (base : List ℕ),
      genPublicFile st radius pbs base "public/opengraph-image.png" 1200 =
        st.resize base ⟨.contain, some (0, 0, 0, 0)⟩ 1200 630 >>= fun ogp =>
          st.encodePng ogp 1200 630) ∧
    (∀ (st : Stages) (radius : ℚ) (pbs : ℕ) (base : List ℕ)
        (fp : String) (size : ℕ),
      (fp, size) ∈ PUBLIC_SIZES → fp ≠ "public/opengraph-image.png" →
      genPublicFile st radius pbs base fp size =
        st.resize base ⟨.cover, none⟩ size size >>= fun raw =>
          st.encodePng (applyRoundedCorners raw size size
            (effectiveRadius radius size size pbs).toNat) size size) ∧
    (∀ (st : Stages) (radius : ℚ) (pbs : ℕ) (base : List ℕ) (size : ℕ),
      resizeAndApplyRoundedCorners st radius pbs base size false =
        st.resize base ⟨.cover, none⟩ size size >>= fun raw =>
          st.encodePng (applyRoundedCorners raw size size
            (effectiveRadius radius size size pbs).toNat) size size) ∧
    (("public/opengraph-image.png", 1200) ∈ PUBLIC_SIZES ∧
     ("public/favicon-16x16.png", 16) ∈ PUBLIC_SIZES ∧
     ("public/favicon-32x32.png", 32) ∈ PUBLIC_SIZES ∧
     ("public/favicon-48x48.png", 48) ∈ PUBLIC_SIZES ∧
     ("public/apple-touch-icon.png", 180) ∈ PUBLIC_SIZES ∧
     ("public/android-chrome-192x192.png", 192) ∈ PUBLIC_SIZES ∧
     ("public/android-chrome-512x512.png", 512) ∈ PUBLIC_SIZES ∧
     ("src/app/icon.png", 32) ∈ APP_SIZES ∧
     ("src/app/apple-icon.png", 180) ∈ APP_SIZES) := by
  refine ⟨?_, ?_, ?_, ?_⟩
  · intro st radius pbs base
    unfold genPublicFile
    rw [if_pos rfl]
  · intro st radius pbs base fp size _ hne
    unfold genPublicFile
    rw [if_neg hne]
    rfl
  · intro st radius pbs base size
    rfl
  · decide

/-- Witness for C9: the Cover-plus-mask equation instantiated at the 32×32
favicon entry of the table, with the concrete 40 px base radius and 192 px
reference size. -/
theorem variant_table_spec_witness :
    genPublicFile testStages 40 192 [] "public/favicon-32x32.png" 32 =
      testStages.resize [] ⟨.cover, none⟩ 32 32 >>= fun raw =>
        testStages.encodePng (applyRoundedCorners raw 32 32
          (effectiveRadius 40 32 32 192).toNat) 32 32 :=
  variant_table_spec.2.1 testStages 40 192 []
    "public/favicon-32x32.png" 32 (by decide) (by decide)

lemma testStages_decode (t : String) (b : List ℕ) :
    testStages.decode t b = .ok (512, 512, []) := rfl

lemma testStages_resize (b : List ℕ) (o : ResizeOpts) (w h : ℕ) :
    testStages.resize b o w h = .ok [255, 255, 255, 255] := rfl

lemma testStages_encodePng (b : List ℕ) (w h : ℕ) :
    testStages.encodePng b w h = .ok b := rfl

lemma testStages_toIco (l : List (List ℕ)) : testStages.toIco l = .ok [] := rfl

lemma effR40_16 : (effectiveRadius 40 16 16 192).toNat = 3 := by
  norm_num [effectiveRadius, scaledRadius, jsRound]
  decide

lemma effR40_32 : (effectiveRadius 40 32 32 192).toNat = 7 := by
  norm_num [effectiveRadius, scaledRadius, jsRound]
  decide

lemma effR40_48 : (effectiveRadius 40 48 48 192).toNat = 10 := by
  norm_num [effectiveRadius, scaledRadius, jsRound]
  decide

lemma effR40_180 : (effectiveRadius 40 180 180 192).toNat = 38 := by
  norm_num [effectiveRadius, scaledRadius, jsRound]
  decide

lemma effR40_192 : (effectiveRadius 40 192 192 192).toNat = 40 := by
  norm_num [effectiveRadius, scaledRadius, jsRound]
  decide

lemma effR40_512 : (effectiveRadius 40 512 512 192).toNat = 107 := by
  norm_num [effectiveRadius, scaledRadius, jsRound]
  decide

/-- With the opaque-pixel stages, every square variant at base radius 40 and
reference 192 comes out with its (single) corner pixel's alpha zeroed. -/
lemma rarc_testStages (s r : ℕ)
    (heff : (effectiveRadius 40 s s 192).toNat = r)
    (hmask : applyRoundedCorners [255, 255, 255, 255] s s r = [255, 255, 255, 0]) :
    resizeAndApplyRoundedCorners testStages 40 192 [] s false =
      .ok [255, 255, 255, 0] := by
  simp only [resizeAndApplyRoundedCorners, Bool.false_eq_true, if_false,
    testStages_resize, except_ok_bind, testStages_encodePng, heff, hmask]

/-- Full evaluation of the handler on `zeroRadiusReq` against `testStages`:
the radius field `"0"` becomes base radius 40, every square variant's corner
pixel loses its alpha, and only the unmasked OGP image stays opaque. -/
lemma POST_testStages_zeroRadius :
    POST testStages zeroRadiusReq = .ok
      [("public/favicon-16x16.png", .bin [255, 255, 255, 0]),
       ("public/favicon-32x32.png", .bin [255, 255, 255, 0]),
       ("public/favicon-48x48.png", .bin [255, 255, 255, 0]),
       ("public/apple-touch-icon.png", .bin [255, 255, 255, 0]),
       ("public/android-chrome-192x192.png", .bin [255, 255, 255, 0]),
       ("public/android-chrome-512x512.png", .bin [255, 255, 255, 0]),
       ("public/opengraph-image.png", .bin [255, 255, 255, 255]),
       ("src/app/icon.png", .bin [255, 255, 255, 0]),
       ("src/app/apple-icon.png", .bin [255, 255, 255, 0]),
       ("public/favicon.ico", .bin []),
       ("src/app/favicon.ico", .bin []),
       ("public/site.webmanifest", .manifest "My App" "App" "#6366f1"),
       ("README.txt", .readme)] := by
  have h16 := rarc_testStages 16 3 effR40_16 (by decide)
  have h32 := rarc_testStages 32 7 effR40_32 (by decide)
  have h48 := rarc_testStages 48 10 effR40_48 (by decide)
  have h180 := rarc_testStages 180 38 effR40_180 (by decide)
  have h192 := rarc_testStages 192 40 effR40_192 (by decide)
  have h512 := rarc_testStages 512 107 effR40_512 (by decide)
  have hogp : genPublicFile testStages 40 192 [] "public/opengraph-image.png" 1200 =
      .ok [255, 255, 255, 255] := by
    unfold genPublicFile
    rw [if_pos rfl, testStages_resize, except_ok_bind, testStages_encodePng]
  have hsq : ∀ fp s, fp ≠ "public/opengraph-image.png" →
      resizeAndApplyRoundedCorners testStages 40 192 [] s false =
        .ok [255, 255, 255, 0] →
      genPublicFile testStages 40 192 [] fp s = .ok [255, 255, 255, 0] := by
    intro fp s hne hval
    unfold genPublicFile
    rw [if_neg hne]
    exact hval
  have hpub : genFiles (genPublicFile testStages 40 192 []) PUBLIC_SIZES = .ok
      [("public/favicon-16x16.png", .bin [255, 255, 255, 0]),
       ("public/favicon-32x32.png", .bin [255, 255, 255, 0]),
       ("public/favicon-48x48.png", .bin [255, 255, 255, 0]),
       ("public/apple-touch-icon.png", .bin [255, 255, 255, 0]),
       ("public/android-chrome-192x192.png", .bin [255, 255, 255, 0]),
       ("public/android-chrome-512x512.png", .bin [255, 255, 255, 0]),
       ("public/opengraph-image.png", .bin [255, 255, 255, 255])] := by
    have g16 := hsq "public/favicon-16x16.png" 16 (by decide) h16
    have g32 := hsq "public/favicon-32x32.png" 32 (by decide) h32
    have g48 := hsq "public/favicon-48x48.png" 48 (by decide) h48
    have g180 := hsq "public/apple-touch-icon.png" 180 (by decide) h180
    have g192 := hsq "public/android-chrome-192x192.png" 192 (by decide) h192
    have g512 := hsq "public/android-chrome-512x512.png" 512 (by decide) h512
    simp only [PUBLIC_SIZES, genFiles, hogp, g16, g32, g48, g180, g192, g512,
      except_ok_bind]
  have happ : genFiles (fun _ size =>
      resizeAndApplyRoundedCorners testStages 40 192 [] size false) APP_SIZES =
      .ok [("src/app/icon.png", .bin [255, 255, 255, 0]),
           ("src/app/apple-icon.png", .bin [255, 255, 255, 0])] := by
    simp only [APP_SIZES, genFiles, h32, h180, except_ok_bind]
  have hico : genIcoBuffers testStages 40 192 [] ICO_SIZES = .ok
      [[255, 255, 255, 0], [255, 255, 255, 0], [255, 255, 255, 0]] := by
    simp only [ICO_SIZES, genIcoBuffers, h16, h32, h48, except_ok_bind]
  have hrad : parseRadius (some 0) = 40 := by norm_num [parseRadius]
  unfold POST
  rw [show zeroRadiusReq.file = some ⟨4, "image/png", []⟩ from rfl]
  dsimp only
  rw [if_neg (by decide), if_neg (by decide),
    show zeroRadiusReq.radiusVal = some 0 from rfl, hrad,
    testStages_decode, except_mapError_ok, except_ok_bind]
  dsimp only
  rw [show previewBaseSize 512 512 = 192 from by decide,
    hpub, except_mapError_ok, except_ok_bind,
    happ, except_mapError_ok, except_ok_bind,
    hico, except_mapError_ok, except_ok_bind,
    testStages_toIco, except_mapError_ok, except_ok_bind]
  rfl

/-- C6 (code bug): A request whose radius form field is the string `"0"`
does *not* come out fully opaque: `Number("0") || 40` silently replaces the
requested 0 by the default base radius 40, so the corner mask still runs
(effective radius 7 on the 32×32 variant) and zeroes corner alpha — here the
fully opaque pixel returned by the resize stage comes back with alpha 0 in
the produced `favicon-32x32.png`, contradicting the claim (and the UI, whose
slider labels radius 0 as "no corners"). -/
theorem radius_zero_request_still_masks :
    parseRadius (some 0) = 40 ∧
    testStages.resize [] ⟨.cover, none⟩ 32 32 = .ok [255, 255, 255, 255] ∧
    (POST testStages zeroRadiusReq).map
        (List.lookup "public/favicon-32x32.png") =
      .ok (some (.bin [255, 255, 255, 0])) := by
  refine ⟨by norm_num [parseRadius], rfl, ?_⟩
  rw [POST_testStages_zeroRadius]
  rfl

/-- Witness for C7: an oversized upload (20 MB) is answered with the 400
`tooLarge` validation error before any stage runs. -/
theorem validate_spec_witness :
    POST testStages
        { file := some ⟨20000000, "image/png", []⟩, radiusVal := some 0,
          appName := "My App", shortName := "App", themeColor := "#6366f1" } =
      .error .tooLarge :=
  validate_spec.2.2 testStages _ ⟨20000000, "image/png", []⟩ .tooLarge rfl
    (by decide)

/-- Witness for C8: with a failing decode stage, the whole request answers
with the single decode error and no archive. -/
theorem pipeline_all_or_nothing_witness :
    POST failDecodeStages
        { file := some ⟨4, "image/png", []⟩, radiusVal := none,
          appName := "My App", shortName := "App", themeColor := "#6366f1" } =
      .error (.internal "unsupported image format") :=
  pipeline_all_or_nothing.2 failDecodeStages _ ⟨4, "image/png", []⟩ _ rfl
    (by decide) (by decide) rfl

end FaviconGen
